import Mathlib

/-
Verification of the task-configuration composition engine of the baur
repository (package cfg): data model, include store, merge resolver and
validators, embedded shallowly from the Go sources in src/cfg and the
error-path utility in src/unnamed/part_000.
-/

namespace BaurCfg

/- String literals used by the embedded code. Single-quote characters that
appear inside Go error messages are produced through sq, the one-character
string holding the character with code 39. -/

def sq : String := String.mk [Char.ofNat 39]

def emptyStr : String := ""

def buildStr : String := "build"

def segName : String := "name"

def segCommand : String := "command"

def segInput : String := "Input"

def segOutput : String := "Output"

def segTasks : String := "Tasks"

def segTask : String := "Task"

def segFiles : String := "Files"

def segGolangSources : String := "GolangSources"

def segPaths : String := "paths"

def segPath : String := "path"

def segFile : String := "File"

def segDockerImage : String := "DockerImage"

def segRegistryUpload : String := "RegistryUpload"

def segRepository : String := "repository"

def segTag : String := "tag"

def segIdfile : String := "idfile"

def segDestfile : String := "destfile"

def segBucket : String := "bucket"

def segId : String := "id"

def canNotBeEmptyMsg : String := "can not be empty"

def nameMustBeBuildMsg : String := "name must be " ++ sq ++ buildStr ++ sq

def sectionIsEmptyMsg : String := "section is empty"

def golangPathsRequiredMsg : String := "must be set if environment is set"

def emptyPathInvalidMsg : String := "empty string is an invalid path"

def doubleStarStr : String := "**"

def doubleStarMsg : String :=
  sq ++ doubleStarStr ++ sq ++ " can only appear one time in a path"

def tasksLenMsgPre : String := "must contain exactly 1 Task definition, has "

def tasksLenMsg (n : Nat) : String := tasksLenMsgPre ++ Nat.repr n

def dupTaskNameMsgPre : String := "multiple tasks with name "

def dupTaskNameMsgPost : String := " exist, task names must be unique"

def dupTaskNameMsg (name : String) : String :=
  dupTaskNameMsgPre ++ sq ++ name ++ sq ++ dupTaskNameMsgPost

def includeNotFoundMsgPre : String := "could not find include with id "

def includeNotFoundMsg (id : String) : String :=
  includeNotFoundMsgPre ++ sq ++ id ++ sq

def dupInputOutputMsgPre : String := "multiple input/output includes with id "

def dupInputOutputMsgPost : String :=
  " are defined, include/output ids must be unique"

def dupInputOutputMsg (id : String) : String :=
  dupInputOutputMsgPre ++ sq ++ id ++ sq ++ dupInputOutputMsgPost

def dupTasksIncludeMsgPre : String := "multiple tasks includes with id "

def dupTasksIncludeMsgPost : String :=
  " are defined, include ids must be unique"

def dupTasksIncludeMsg (id : String) : String :=
  dupTasksIncludeMsgPre ++ sq ++ id ++ sq ++ dupTasksIncludeMsgPost

def noOutputMsg : String := "no output is defined"

def taskNamePre : String := "Task(name: "

def closeParen : String := ")"

/- Data model, from src/cfg/apploader.go. Go pointer fields that may be nil
(Task.Input, Task.Output, the fragment payloads) are embedded as Option. -/

structure GolangSources where
  environment : List String
  paths : List String
deriving DecidableEq

structure FileInputs where
  paths : List String
deriving DecidableEq

structure GitFileInputs where
  paths : List String
deriving DecidableEq

structure Input where
  files : FileInputs
  gitFiles : GitFileInputs
  golangSources : GolangSources
deriving DecidableEq

structure FileCopy where
  path : String
deriving DecidableEq

structure S3Upload where
  bucket : String
  destFile : String
deriving DecidableEq

structure FileOutput where
  path : String
  fileCopy : FileCopy
  s3Upload : S3Upload
deriving DecidableEq

structure DockerImageRegistryUpload where
  repository : String
  tag : String
deriving DecidableEq

structure DockerImageOutput where
  idFile : String
  registryUpload : DockerImageRegistryUpload
deriving DecidableEq

structure Output where
  dockerImage : List DockerImageOutput
  file : List FileOutput
deriving DecidableEq

structure Task where
  name : String
  command : String
  includes : List String
  input : Option Input
  output : Option Output
deriving DecidableEq

abbrev Tasks := List Task

structure App where
  name : String
  includes : List String
  tasks : Tasks
deriving DecidableEq

/- Merge functions, from src/cfg/apploader.go. Each one appends the other
sides entries after the receivers entries. -/

/-- Merge of two FileInputs values: paths are appended, from FileInputs.Merge. -/
def FileInputs.Merge (f other : FileInputs) : FileInputs :=
  { paths := f.paths ++ other.paths }

/-- Merge of two GitFileInputs values, from GitFileInputs.Merge. -/
def GitFileInputs.Merge (g other : GitFileInputs) : GitFileInputs :=
  { paths := g.paths ++ other.paths }

/-- Merge of two GolangSources values, from GolangSources.Merge. -/
def GolangSources.Merge (g other : GolangSources) : GolangSources :=
  { paths := g.paths ++ other.paths
    environment := g.environment ++ other.environment }

/-- Merge of two Input values, from Input.Merge: merges the three sections. -/
def Input.Merge (i other : Input) : Input :=
  { files := i.files.Merge other.files
    gitFiles := i.gitFiles.Merge other.gitFiles
    golangSources := i.golangSources.Merge other.golangSources }

/-- Merge of two Output values, from Output.Merge: both lists are appended. -/
def Output.Merge (o other : Output) : Output :=
  { dockerImage := o.dockerImage ++ other.dockerImage
    file := o.file ++ other.file }

/- Validation, from src/cfg/apploader.go and the error-path utility in
src/unnamed/part_000. Every validator of this package returns a
ValidationError pointer, embedded as Option ValidationError, none meaning a
nil error. -/

structure ValidationError where
  elementPath : List String
  message : String
deriving DecidableEq

/-- PrependValidationErrorPath prepends the passed path segments to the
ElementPath field of a ValidationError, from src/unnamed/part_000. The Go
function also accepts non-ValidationError errors and passes them through
unchanged; in the cfg validators embedded here every error is a
ValidationError, so only that case is embedded. -/
def PrependValidationErrorPath (e : ValidationError) (path : List String) :
    ValidationError :=
  { e with elementPath := path ++ e.elementPath }

/-- applyLayers applies one single-segment PrependValidationErrorPath wrap per
segment, innermost segment last, the way nested validators wrap an error on
the way back up. -/
def applyLayers (segs : List String) (e : ValidationError) : ValidationError :=
  segs.foldr (fun s acc => PrependValidationErrorPath acc [s]) e

/-- findErr runs the given check over a list and returns the first error,
embedding the early-return loops of the Go validators. -/
def findErr {α : Type} (f : α → Option ValidationError) :
    List α → Option ValidationError
  | [] => none
  | x :: rest =>
    match f x with
    | some e => some e
    | none => findErr f rest

/-- countDoubleStar counts non-overlapping occurrences of two consecutive
star characters, embedding strings.Count(path, pat) for the fixed pattern
used by FileInputs.Validate. -/
def countDoubleStar : List Char → Nat
  | [] => 0
  | [_] => 0
  | a :: b :: rest =>
    if a = Char.ofNat 42 ∧ b = Char.ofNat 42 then
      1 + countDoubleStar rest
    else
      countDoubleStar (b :: rest)

/-- FileInputs.Validate checks each glob path: it must be non-empty and may
contain the double-star wildcard at most once. -/
def FileInputs.Validate (f : FileInputs) : Option ValidationError :=
  findErr
    (fun path =>
      if path = emptyStr then
        some { elementPath := [segPath], message := canNotBeEmptyMsg }
      else if countDoubleStar path.data > 1 then
        some { elementPath := [segPath], message := doubleStarMsg }
      else
        none)
    f.paths

/-- GolangSources.Validate checks that paths are set whenever environment is,
and that no path is the empty string. -/
def GolangSources.Validate (g : GolangSources) : Option ValidationError :=
  if g.environment ≠ [] ∧ g.paths = [] then
    some { elementPath := [segPaths], message := golangPathsRequiredMsg }
  else
    findErr
      (fun p =>
        if p = emptyStr then
          some { elementPath := [segPaths], message := emptyPathInvalidMsg }
        else
          none)
      g.paths

/-- Input.Validate validates the Files and GolangSources sections, wrapping a
child error with one path segment. -/
def Input.Validate (i : Input) : Option ValidationError :=
  match i.files.Validate with
  | some e => some (PrependValidationErrorPath e [segFiles])
  | none =>
    match i.golangSources.Validate with
    | some e => some (PrependValidationErrorPath e [segGolangSources])
    | none => none

/-- IsEmpty of FileCopy, from src/cfg/apploader.go. -/
def FileCopy.IsEmpty (f : FileCopy) : Bool :=
  f.path = emptyStr

/-- IsEmpty of S3Upload, from src/cfg/apploader.go. -/
def S3Upload.IsEmpty (s : S3Upload) : Bool :=
  s.bucket = emptyStr && s.destFile = emptyStr

/-- IsEmpty of DockerImageRegistryUpload, from src/cfg/apploader.go. -/
def DockerImageRegistryUpload.IsEmpty (d : DockerImageRegistryUpload) : Bool :=
  d.repository = emptyStr && d.tag = emptyStr

/-- S3Upload.Validate is all-or-nothing: an empty upload is valid, a partial
one reports the missing field. -/
def S3Upload.Validate (s : S3Upload) : Option ValidationError :=
  if s.IsEmpty then
    none
  else if s.destFile = emptyStr then
    some { elementPath := [segDestfile], message := canNotBeEmptyMsg }
  else if s.bucket = emptyStr then
    some { elementPath := [segBucket], message := canNotBeEmptyMsg }
  else
    none

/-- FileOutput.Validate requires a path and then validates the S3 upload
destination without adding a path segment. -/
def FileOutput.Validate (f : FileOutput) : Option ValidationError :=
  if f.path = emptyStr then
    some { elementPath := [segPath], message := canNotBeEmptyMsg }
  else
    f.s3Upload.Validate

/-- DockerImageRegistryUpload.Validate requires both repository and tag. -/
def DockerImageRegistryUpload.Validate (d : DockerImageRegistryUpload) :
    Option ValidationError :=
  if d.repository = emptyStr then
    some { elementPath := [segRepository], message := canNotBeEmptyMsg }
  else if d.tag = emptyStr then
    some { elementPath := [segTag], message := canNotBeEmptyMsg }
  else
    none

/-- DockerImageOutput.Validate requires the idfile and validates the registry
upload, wrapping its error with one segment. -/
def DockerImageOutput.Validate (d : DockerImageOutput) :
    Option ValidationError :=
  if d.idFile = emptyStr then
    some { elementPath := [segIdfile], message := canNotBeEmptyMsg }
  else
    match d.registryUpload.Validate with
    | some e => some (PrependValidationErrorPath e [segRegistryUpload])
    | none => none

/-- Output.Validate validates every File entry, then every DockerImage entry,
wrapping a child error with one segment. -/
def Output.Validate (o : Output) : Option ValidationError :=
  match
    findErr
      (fun f =>
        match f.Validate with
        | some e => some (PrependValidationErrorPath e [segFile])
        | none => none)
      o.file
  with
  | some e => some e
  | none =>
    findErr
      (fun d =>
        match d.Validate with
        | some e => some (PrependValidationErrorPath e [segDockerImage])
        | none => none)
      o.dockerImage

/-- Task.Validate checks command, name, and the presence and contents of the
Input and Output sections, in that order. -/
def Task.Validate (t : Task) : Option ValidationError :=
  if t.command = emptyStr then
    some { elementPath := [segCommand], message := canNotBeEmptyMsg }
  else if t.name ≠ buildStr then
    some { elementPath := [segName], message := nameMustBeBuildMsg }
  else
    match t.input with
    | none => some { elementPath := [segInput], message := sectionIsEmptyMsg }
    | some i =>
      match i.Validate with
      | some e => some (PrependValidationErrorPath e [segInput])
      | none =>
        match t.output with
        | none =>
          some { elementPath := [segOutput], message := sectionIsEmptyMsg }
        | some o =>
          match o.Validate with
          | some e => some (PrependValidationErrorPath e [segOutput])
          | none => none

/-- taskErrSegment is the path segment Tasks.Validate wraps a child error
with: the plain Task segment when the task has no name, otherwise a segment
carrying the task name. -/
def taskErrSegment (name : String) : String :=
  if name = emptyStr then segTask else taskNamePre ++ name ++ closeParen

/-- tasksValidateLoop is the loop body of Tasks.Validate: it tracks the task
names seen so far, reports a duplicate name, and otherwise validates each
task, wrapping a child error with one segment. -/
def tasksValidateLoop (seen : List String) : List Task →
    Option ValidationError
  | [] => none
  | t :: rest =>
    if t.name ∈ seen then
      some { elementPath := [segTask, segName]
             message := dupTaskNameMsg t.name }
    else
      match t.Validate with
      | some e => some (PrependValidationErrorPath e [taskErrSegment t.name])
      | none => tasksValidateLoop (t.name :: seen) rest

/-- Tasks.Validate first requires exactly one task, then runs the duplicate
check and per-task validation loop. -/
def Tasks.Validate (tasks : Tasks) : Option ValidationError :=
  if tasks.length ≠ 1 then
    some { elementPath := [], message := tasksLenMsg tasks.length }
  else
    tasksValidateLoop [] tasks

/-- App.Validate requires a non-empty name and then validates the task list,
wrapping its error with the Tasks segment. -/
def App.Validate (a : App) : Option ValidationError :=
  if a.name = emptyStr then
    some { elementPath := [segName], message := canNotBeEmptyMsg }
  else
    match Tasks.Validate a.tasks with
    | some e => some (PrependValidationErrorPath e [segTasks])
    | none => none

/- Include store, from src/cfg/include.go and src/cfg/includedb.go. The
three Go maps are embedded as association lists; IncludeDB.add only ever
inserts fresh keys, for which appending a pair is equivalent to a map
insert. -/

structure InputInclude where
  id : String
  input : Option Input
deriving DecidableEq

structure OutputInclude where
  id : String
  output : Option Output
deriving DecidableEq

structure TasksInclude where
  id : String
  tasks : Tasks
deriving DecidableEq

structure IncludeFile where
  inputs : List InputInclude
  outputs : List OutputInclude
  tasks : List TasksInclude
deriving DecidableEq

structure IncludeDB where
  inputs : List (String × InputInclude)
  outputs : List (String × OutputInclude)
  tasks : List (String × TasksInclude)
deriving DecidableEq

/-- InputIncludeExist reports whether an input include with the given id is
registered, from src/cfg/includedb.go. -/
def IncludeDB.InputIncludeExist (db : IncludeDB) (id : String) : Bool :=
  (List.lookup id db.inputs).isSome

/-- OutputIncludeExist reports whether an output include with the given id is
registered, from src/cfg/includedb.go. -/
def IncludeDB.OutputIncludeExist (db : IncludeDB) (id : String) : Bool :=
  (List.lookup id db.outputs).isSome

/-- TasksIncludeExist embeds the inline existence check on the Tasks map that
IncludeDB.add performs for task-group fragments. -/
def IncludeDB.TasksIncludeExist (db : IncludeDB) (id : String) : Bool :=
  (List.lookup id db.tasks).isSome

/-- addInputs is the first loop of IncludeDB.add: each input fragment is
checked against the input and output namespaces and then inserted; the store
returned on failure reflects the insertions already performed. -/
def IncludeDB.addInputs (db : IncludeDB) :
    List InputInclude → IncludeDB × Option String
  | [] => (db, none)
  | inp :: rest =>
    if db.InputIncludeExist inp.id || db.OutputIncludeExist inp.id then
      (db, some (dupInputOutputMsg inp.id))
    else
      IncludeDB.addInputs
        { db with inputs := db.inputs ++ [(inp.id, inp)] } rest

/-- addOutputs is the second loop of IncludeDB.add, symmetric to addInputs. -/
def IncludeDB.addOutputs (db : IncludeDB) :
    List OutputInclude → IncludeDB × Option String
  | [] => (db, none)
  | outp :: rest =>
    if db.InputIncludeExist outp.id || db.OutputIncludeExist outp.id then
      (db, some (dupInputOutputMsg outp.id))
    else
      IncludeDB.addOutputs
        { db with outputs := db.outputs ++ [(outp.id, outp)] } rest

/-- addTasks is the third loop of IncludeDB.add: task-group fragments are
checked only against the Tasks namespace. -/
def IncludeDB.addTasks (db : IncludeDB) :
    List TasksInclude → IncludeDB × Option String
  | [] => (db, none)
  | tsk :: rest =>
    if db.TasksIncludeExist tsk.id then
      (db, some (dupTasksIncludeMsg tsk.id))
    else
      IncludeDB.addTasks
        { db with tasks := db.tasks ++ [(tsk.id, tsk)] } rest

/-- add registers every fragment of an include file into the store, from
IncludeDB.add in src/cfg/includedb.go: inputs, then outputs, then task
groups, stopping at the first duplicate id; Go mutates the maps in place, so
the store state at the moment of failure is returned together with the
error. -/
def IncludeDB.add (db : IncludeDB) (incl : IncludeFile) :
    IncludeDB × Option String :=
  match db.addInputs incl.inputs with
  | (db1, some e) => (db1, some e)
  | (db1, none) =>
    match db1.addOutputs incl.outputs with
    | (db2, some e) => (db2, some e)
    | (db2, none) => db2.addTasks incl.tasks

/- Merge resolver, from src/cfg/apploader.go. A GoResult models a Go call
that can return a value, return an error, or panic with a nil-pointer
dereference. -/

inductive GoResult (α : Type) where
  | ok (a : α)
  | err (msg : String)
  | crash
deriving DecidableEq

/-- MergeStep resolves one include id of a task, from the loop body of
Task.Merge: the id is looked up in the Inputs namespace first, then in
Outputs; a hit deep-merges into the corresponding task section, a miss in
both namespaces is an error. Dereferencing a nil task section or a nil
fragment payload is a crash. -/
def Task.MergeStep (db : IncludeDB) (t : Task) (includeID : String) :
    GoResult Task :=
  match List.lookup includeID db.inputs with
  | some inc =>
    match t.input, inc.input with
    | none, _ => GoResult.crash
    | some _, none => GoResult.crash
    | some ti, some fi => GoResult.ok { t with input := some (ti.Merge fi) }
  | none =>
    match List.lookup includeID db.outputs with
    | some inc =>
      match t.output, inc.output with
      | none, _ => GoResult.crash
      | some _, none => GoResult.crash
      | some toV, some fo =>
        GoResult.ok { t with output := some (toV.Merge fo) }
    | none => GoResult.err (includeNotFoundMsg includeID)

/-- MergeGo folds MergeStep over a list of include ids in declared order,
stopping at the first error or crash. -/
def Task.MergeGo (db : IncludeDB) : Task → List String → GoResult Task
  | t, [] => GoResult.ok t
  | t, id :: rest =>
    match Task.MergeStep db t id with
    | GoResult.ok t2 => Task.MergeGo db t2 rest
    | GoResult.err e => GoResult.err e
    | GoResult.crash => GoResult.crash

/-- Merge resolves every include id of a task, from Task.Merge in
src/cfg/apploader.go. -/
def Task.Merge (db : IncludeDB) (t : Task) : GoResult Task :=
  Task.MergeGo db t t.includes

/-- MergeGo folds the app-level include loop: each id is looked up in the
Tasks namespace and the tasks of the found fragment are appended after the
tasks already on the app. -/
def App.MergeGo (db : IncludeDB) : App → List String → GoResult App
  | a, [] => GoResult.ok a
  | a, id :: rest =>
    match List.lookup id db.tasks with
    | none => GoResult.err (includeNotFoundMsg id)
    | some inc =>
      App.MergeGo db { a with tasks := a.tasks ++ inc.tasks } rest

/-- Merge resolves the task-group includes of an app, from App.Merge in
src/cfg/apploader.go. -/
def App.Merge (db : IncludeDB) (a : App) : GoResult App :=
  App.MergeGo db a a.includes

/-- Load of the app loader, from AppLoader.Load in src/cfg/apploader.go: it
parses the file via AppFromFile and then calls App.Merge on the result.
AppFromFile performs file reading and TOML deserialization, which are
external collaborators; Load is therefore embedded over the outcome of that
parse stage. -/
def AppLoader.Load (parsed : GoResult App) (db : IncludeDB) : GoResult App :=
  match parsed with
  | GoResult.ok app => App.Merge db app
  | GoResult.err e => GoResult.err e
  | GoResult.crash => GoResult.crash

/- Removal of empty output sections. The current version lives in
src/cfg/apploader.go, the earlier version with its IsEmpty filters in
src/unnamed/part_000. -/

/-- removeEmptySections of the current src/cfg/apploader.go: both slices are
rebuilt by appending every element, without any emptiness check. -/
def Output.removeEmptySections (o : Output) : Output :=
  { o with
    file := List.foldl (fun acc f => acc ++ [f]) [] o.file
    dockerImage := List.foldl (fun acc d => acc ++ [d]) [] o.dockerImage }

/-- IsEmptyV0 of FileOutput, from src/unnamed/part_000: the FileCopy and
S3Upload destinations are both empty. -/
def FileOutput.IsEmptyV0 (f : FileOutput) : Bool :=
  f.fileCopy.IsEmpty && f.s3Upload.IsEmpty

/-- IsEmptyV0 of DockerImageOutput, from src/unnamed/part_000. -/
def DockerImageOutput.IsEmptyV0 (d : DockerImageOutput) : Bool :=
  d.idFile = emptyStr && d.registryUpload.IsEmpty

/-- removeEmptySectionsV0, from src/unnamed/part_000: entries whose IsEmpty
check holds are skipped while rebuilding both slices. -/
def removeEmptySectionsV0 (o : Output) : Output :=
  { o with
    file := List.foldl
      (fun acc f => if f.IsEmptyV0 then acc else acc ++ [f]) [] o.file
    dockerImage := List.foldl
      (fun acc d => if d.IsEmptyV0 then acc else acc ++ [d]) [] o.dockerImage }

/- OutputInclude.Validate, from src/cfg/include.go lines 240 to 260. After
checking that the id is non-empty and the Output payload is non-nil, the Go
method calls out.Validate() on the same receiver again, not
out.Output.Validate(). The recursion is embedded with an explicit fuel
argument; none stands for a computation that did not finish within the
fuel. -/
def OutputInclude.ValidateFuel : Nat → OutputInclude →
    Option (Option ValidationError)
  | 0, _ => none
  | n + 1, out =>
    if out.id = emptyStr then
      some (some { elementPath := [segId], message := canNotBeEmptyMsg })
    else
      match out.output with
      | none =>
        some (some { elementPath := [segOutput], message := noOutputMsg })
      | some _ =>
        match OutputInclude.ValidateFuel n out with
        | none => none
        | some (some e) =>
          some (some (PrependValidationErrorPath e [segOutput]))
        | some none => some none

/- Substring helper used to state which names an error message mentions. -/

/-- startsWithList reports whether the first list is an initial segment of
the second one. -/
def startsWithList : List Char → List Char → Bool
  | [], _ => true
  | _ :: _, [] => false
  | p :: ps, c :: cs => p = c && startsWithList ps cs

/-- listHasSub reports whether the first list occurs as a contiguous
sublist of the second one. -/
def listHasSub (pat : List Char) : List Char → Bool
  | [] => startsWithList pat []
  | c :: cs => startsWithList pat (c :: cs) || listHasSub pat cs

/-- strHas reports whether the string s contains pat as a substring. -/
def strHas (s pat : String) : Bool :=
  listHasSub pat.data s.data

/- Concrete values used by the witnesses and counterexamples. -/

def idA : String := "fragA"

def idB : String := "fragB"

def idIn1 : String := "in1"

def idMiss : String := "go-sources"

def idOut1 : String := "out1"

def appNameStr : String := "shop"

def makeDist : String := "make dist"

def inputEmpty : Input := ⟨⟨[]⟩, ⟨[]⟩, ⟨[], []⟩⟩

def outputEmpty : Output := ⟨[], []⟩

def dbEmptyDB : IncludeDB := ⟨[], [], []⟩

/-- dbIn1 is a store holding one input fragment registered under the id
in1. -/
def dbIn1 : IncludeDB := ⟨[(idIn1, ⟨idIn1, some inputEmpty⟩)], [], []⟩

/-- appUnvalidated is an app whose name is empty, so that its validation
fails, and whose single task carries an include reference. -/
def appUnvalidated : App :=
  ⟨emptyStr, [], [⟨buildStr, makeDist, [idIn1], some inputEmpty,
                   some outputEmpty⟩]⟩

/-- dbDupBase is a store already holding an input fragment with id fragA. -/
def dbDupBase : IncludeDB := ⟨[(idA, ⟨idA, none⟩)], [], []⟩

/-- inclDupLater is an include file whose second input fragment collides with
the already registered id fragA while its first fragment is fresh. -/
def inclDupLater : IncludeFile := ⟨[⟨idB, none⟩, ⟨idA, none⟩], [], []⟩

/-- taskMissingInclude references an include id that exists in no
namespace. -/
def taskMissingInclude : Task :=
  ⟨buildStr, makeDist, [idMiss], some inputEmpty, some outputEmpty⟩

/-- taskNilInput references an existing input fragment while its own Input
section is absent. -/
def taskNilInput : Task :=
  ⟨buildStr, makeDist, [idIn1], none, some outputEmpty⟩

/-- emptyFileOut is a file output entry with every leaf field empty. -/
def emptyFileOut : FileOutput := ⟨emptyStr, ⟨emptyStr⟩, ⟨emptyStr, emptyStr⟩⟩

/-- emptyDockerOut is a docker image output entry with every leaf field
empty. -/
def emptyDockerOut : DockerImageOutput := ⟨emptyStr, ⟨emptyStr, emptyStr⟩⟩

/-- outputAllEmpty is an output section holding one fully empty entry of each
kind. -/
def outputAllEmpty : Output := ⟨[emptyDockerOut], [emptyFileOut]⟩

/-- taskBuildOk is a complete, valid task named build. -/
def taskBuildOk : Task :=
  ⟨buildStr, makeDist, [], some inputEmpty, some outputEmpty⟩

/-- appTwoBuildTasks declares two tasks that are both named build. -/
def appTwoBuildTasks : App := ⟨appNameStr, [], [taskBuildOk, taskBuildOk]⟩

/-- appNoTasks declares no task at all. -/
def appNoTasks : App := ⟨appNameStr, [], []⟩

/-- outInclC9 is an output include with a non-empty id and a non-nil Output
payload. -/
def outInclC9 : OutputInclude := ⟨idOut1, some outputEmpty⟩

end BaurCfg

namespace BaurCfg

/-- C1: merging an Input fragment with non-empty Files paths into a Task Input
whose own Files paths are P yields paths P followed by the fragment paths, in
order, without deduplication. -/
theorem input_merge_appends_file_paths (ti fi : Input)
    (h : fi.files.paths ≠ []) :
    (ti.Merge fi).files.paths = ti.files.paths ++ fi.files.paths := by
  simp [Input.Merge, FileInputs.Merge]

/-- C1 witness: the appending behaviour evaluated at concrete inputs. -/
theorem input_merge_appends_file_paths_witness :
    ((Input.mk ⟨[segTask]⟩ ⟨[]⟩ ⟨[], []⟩).Merge
        (Input.mk ⟨[segFile]⟩ ⟨[]⟩ ⟨[], []⟩)).files.paths
      = [segTask] ++ [segFile] :=
  input_merge_appends_file_paths
    (Input.mk ⟨[segTask]⟩ ⟨[]⟩ ⟨[], []⟩)
    (Input.mk ⟨[segFile]⟩ ⟨[]⟩ ⟨[], []⟩)
    (by decide)

/- Substring facts about the helper strHas, shared by several claims. -/

theorem startsWithList_append (pat post : List Char) :
    startsWithList pat (pat ++ post) = true := by
  induction pat with
  | nil => simp [startsWithList]
  | cons p ps ih => simp [startsWithList, ih]

theorem listHasSub_tail (pat : List Char) (c : Char) (cs : List Char)
    (h : listHasSub pat cs = true) : listHasSub pat (c :: cs) = true := by
  simp [listHasSub, h]

theorem listHasSub_self_append (pat post : List Char) :
    listHasSub pat (pat ++ post) = true := by
  cases pat with
  | nil =>
    cases post with
    | nil => rfl
    | cons c cs => simp [listHasSub, startsWithList]
  | cons p ps =>
    simp [listHasSub]
    exact Or.inl (by simpa using startsWithList_append (p :: ps) post)

theorem listHasSub_append_left (pre pat text : List Char)
    (h : listHasSub pat text = true) :
    listHasSub pat (pre ++ text) = true := by
  induction pre with
  | nil => simpa using h
  | cons c cs ih => simpa [List.cons_append] using listHasSub_tail pat c (cs ++ text) ih

theorem strHas_surrounded (pre mid post : String) :
    strHas (pre ++ (mid ++ post)) mid = true := by
  unfold strHas
  rw [String.data_append, String.data_append]
  exact listHasSub_append_left pre.data mid.data (mid.data ++ post.data)
    (listHasSub_self_append mid.data post.data)

theorem includeNotFoundMsg_has_id (id : String) :
    strHas (includeNotFoundMsg id) id = true := by
  have h : includeNotFoundMsg id
      = (includeNotFoundMsgPre ++ sq) ++ (id ++ sq) := by
    simp [includeNotFoundMsg, String.append_assoc]
  rw [h]
  exact strHas_surrounded (includeNotFoundMsgPre ++ sq) id sq

/-- C2: counterexample — AppLoader.Load hands back the parsed and app-merged
App even though App-level validation fails on it and its task-level include
reference is left unresolved; Load never invokes validation or per-task
merging. -/
theorem appLoader_load_skips_validation_cex :
    AppLoader.Load (GoResult.ok appUnvalidated) dbIn1
        = GoResult.ok appUnvalidated
      ∧ (App.Validate appUnvalidated).isSome = true := by
  refine ⟨?_, ?_⟩ <;> decide

/-- C2 amended: Load sequences only parse and app-level merge: an app without
task-group includes is returned exactly as parsed, whatever its validation
status, and a parse error is passed through as the first error. -/
theorem appLoader_load_parse_then_merge_only :
    (∀ (db : IncludeDB) (app : App), app.includes = [] →
        AppLoader.Load (GoResult.ok app) db = GoResult.ok app)
  ∧ (∀ (db : IncludeDB) (msg : String),
        AppLoader.Load (GoResult.err msg) db = GoResult.err msg) := by
  constructor
  · intro db app h
    simp [AppLoader.Load, App.Merge, h, App.MergeGo]
  · intro db msg
    rfl

/-- C2 witness: the amended Load behaviour evaluated at a concrete app. -/
theorem appLoader_load_parse_then_merge_only_witness :
    AppLoader.Load (GoResult.ok appTwoBuildTasks) dbEmptyDB
      = GoResult.ok appTwoBuildTasks :=
  appLoader_load_parse_then_merge_only.1 dbEmptyDB appTwoBuildTasks rfl

/-- C3: counterexample — registering an include file whose second input
fragment collides with an already stored id fails with the duplicate-id
error, yet the first fragment of the same file is left registered, so the
visible store content differs from the content before the call. -/
theorem includeDB_add_partial_mutation_cex :
    (dbDupBase.add inclDupLater).2 = some (dupInputOutputMsg idA)
  ∧ (dbDupBase.add inclDupLater).1.InputIncludeExist idB = true
  ∧ dbDupBase.InputIncludeExist idB = false := by
  refine ⟨?_, ?_, ?_⟩ <;> decide

/-- C3 amended: when the first input fragment of an include file is fresh and
the second collides, add fails with the duplicate-id error naming the second
id while the first fragment stays registered; the store is unchanged only
when the collision hits the first fragment processed. -/
theorem includeDB_add_partial_mutation (db : IncludeDB)
    (i1 i2 : InputInclude)
    (h1 : (db.InputIncludeExist i1.id || db.OutputIncludeExist i1.id)
        = false)
    (h2 : ((IncludeDB.mk (db.inputs ++ [(i1.id, i1)]) db.outputs
              db.tasks).InputIncludeExist i2.id
        || (IncludeDB.mk (db.inputs ++ [(i1.id, i1)]) db.outputs
              db.tasks).OutputIncludeExist i2.id) = true) :
    db.add ⟨[i1, i2], [], []⟩
      = (IncludeDB.mk (db.inputs ++ [(i1.id, i1)]) db.outputs db.tasks,
         some (dupInputOutputMsg i2.id)) := by
  simp [IncludeDB.add, IncludeDB.addInputs, h1, h2]

/-- C3 witness: the partial mutation evaluated at concrete fragments. -/
theorem includeDB_add_partial_mutation_witness :
    dbEmptyDB.add ⟨[⟨idB, none⟩, ⟨idB, none⟩], [], []⟩
      = (IncludeDB.mk ([] ++ [(idB, ⟨idB, none⟩)]) [] [],
         some (dupInputOutputMsg idB)) :=
  includeDB_add_partial_mutation dbEmptyDB ⟨idB, none⟩ ⟨idB, none⟩
    (by decide) (by decide)

/-- C4: counterexample — resolving an include id found in neither namespace
fails with an error that names the id but not the referencing task, whose
name build does not occur in the message. -/
theorem task_merge_missing_include_error_cex :
    Task.Merge dbEmptyDB taskMissingInclude
        = GoResult.err (includeNotFoundMsg idMiss)
      ∧ taskMissingInclude.name = buildStr
      ∧ strHas (includeNotFoundMsg idMiss) buildStr = false := by
  refine ⟨?_, ?_, ?_⟩ <;> decide

/-- C4 amended: include ids are resolved in declared order, each looked up in
the Input namespace first and then in Output; an Input hit deep-merges into
the task Input, an Output hit into the task Output, and a miss in both fails
with the fixed reference error that names exactly that id, without the task
name. -/
theorem task_merge_resolution_order (db : IncludeDB) (t : Task) (ti : Input)
    (tov : Output) (hIn : t.input = some ti) (hOut : t.output = some tov) :
    (∀ id rest inc fi, t.includes = id :: rest →
        List.lookup id db.inputs = some inc → inc.input = some fi →
        Task.Merge db t
          = Task.MergeGo db { t with input := some (ti.Merge fi) } rest)
  ∧ (∀ id rest inc fo, t.includes = id :: rest →
        List.lookup id db.inputs = none →
        List.lookup id db.outputs = some inc → inc.output = some fo →
        Task.Merge db t
          = Task.MergeGo db { t with output := some (tov.Merge fo) } rest)
  ∧ (∀ id rest, t.includes = id :: rest →
        List.lookup id db.inputs = none → List.lookup id db.outputs = none →
        Task.Merge db t = GoResult.err (includeNotFoundMsg id)
          ∧ strHas (includeNotFoundMsg id) id = true) := by
  refine ⟨?_, ?_, ?_⟩
  · intro id rest inc fi hid hlk hfi
    simp [Task.Merge, hid, Task.MergeGo, Task.MergeStep, hlk, hIn, hfi]
  · intro id rest inc fo hid hlkIn hlkOut hfo
    simp [Task.Merge, hid, Task.MergeGo, Task.MergeStep, hlkIn, hlkOut,
      hOut, hfo]
  · intro id rest hid hlkIn hlkOut
    refine ⟨?_, includeNotFoundMsg_has_id id⟩
    simp [Task.Merge, hid, Task.MergeGo, Task.MergeStep, hlkIn, hlkOut]

/-- C4 witness: the missing-include branch evaluated at a concrete task. -/
theorem task_merge_resolution_order_witness :
    Task.Merge dbEmptyDB taskMissingInclude
        = GoResult.err (includeNotFoundMsg idMiss)
      ∧ strHas (includeNotFoundMsg idMiss) idMiss = true :=
  (task_merge_resolution_order dbEmptyDB taskMissingInclude inputEmpty
      outputEmpty rfl rfl).2.2 idMiss [] rfl rfl rfl

/-- C5: input and output fragment ids share one namespace while task-group
fragment ids live in an independent one: registering a single input or output
fragment fails exactly when its id collides with an existing input or output
id, and registering a task-group fragment fails exactly when its id collides
with an existing task-group id, regardless of input or output ids. -/
theorem includeDB_namespace_separation (db : IncludeDB) (inp : InputInclude)
    (outp : OutputInclude) (tsk : TasksInclude) :
    ((db.add ⟨[inp], [], []⟩).2.isSome
        = (db.InputIncludeExist inp.id || db.OutputIncludeExist inp.id))
  ∧ ((db.add ⟨[], [outp], []⟩).2.isSome
        = (db.InputIncludeExist outp.id || db.OutputIncludeExist outp.id))
  ∧ ((db.add ⟨[], [], [tsk]⟩).2.isSome = db.TasksIncludeExist tsk.id) := by
  refine ⟨?_, ?_, ?_⟩
  · cases h : db.InputIncludeExist inp.id || db.OutputIncludeExist inp.id with
    | false =>
      simp [IncludeDB.add, IncludeDB.addInputs, IncludeDB.addOutputs,
        IncludeDB.addTasks, h]
    | true =>
      simp [IncludeDB.add, IncludeDB.addInputs, IncludeDB.addOutputs,
        IncludeDB.addTasks, h]
  · cases h : db.InputIncludeExist outp.id || db.OutputIncludeExist outp.id with
    | false =>
      simp [IncludeDB.add, IncludeDB.addInputs, IncludeDB.addOutputs,
        IncludeDB.addTasks, h]
    | true =>
      simp [IncludeDB.add, IncludeDB.addInputs, IncludeDB.addOutputs,
        IncludeDB.addTasks, h]
  · cases h : db.TasksIncludeExist tsk.id with
    | false =>
      simp [IncludeDB.add, IncludeDB.addInputs, IncludeDB.addOutputs,
        IncludeDB.addTasks, h]
    | true =>
      simp [IncludeDB.add, IncludeDB.addInputs, IncludeDB.addOutputs,
        IncludeDB.addTasks, h]

/-- C6: the current removeEmptySections keeps an output entry whose leaf
fields are all empty, so the entry reaches validation, while the earlier
version of the function in src/unnamed/part_000 drops it; the current
behaviour contradicts the functions own documentation. -/
theorem removeEmptySections_keeps_empty_entries :
    Output.removeEmptySections outputAllEmpty = outputAllEmpty
  ∧ removeEmptySectionsV0 outputAllEmpty = outputEmpty
  ∧ emptyFileOut.IsEmptyV0 = true
  ∧ emptyDockerOut.IsEmptyV0 = true
  ∧ (Output.Validate (Output.removeEmptySections outputAllEmpty)).isSome
      = true := by
  refine ⟨?_, ?_, ?_, ?_, ?_⟩ <;> decide

/-- C7: counterexample — an app with two tasks named build fails validation
with the task-count error, whose message and path never mention the
duplicate name build. -/
theorem app_validate_duplicate_build_cex :
    App.Validate appTwoBuildTasks = some ⟨[segTasks], tasksLenMsg 2⟩
  ∧ strHas (tasksLenMsg 2) buildStr = false := by
  refine ⟨?_, ?_⟩ <;> decide

/-- C7 amended: for every app declaring two tasks both named build,
validation fails, but the reported error is the empty-name or the
exactly-one-task count error and never mentions the duplicate name build;
the duplicate-name branch is unreachable behind the length check. -/
theorem app_validate_two_tasks_counts_not_names (nm : String)
    (incs : List String) (t1 t2 : Task)
    (h1 : t1.name = buildStr) (h2 : t2.name = buildStr) :
    ∃ e, App.Validate ⟨nm, incs, [t1, t2]⟩ = some e
      ∧ strHas e.message buildStr = false := by
  by_cases hnm : nm = emptyStr
  · refine ⟨⟨[segName], canNotBeEmptyMsg⟩, ?_, by decide⟩
    simp [App.Validate, hnm]
  · refine ⟨⟨[segTasks], tasksLenMsg 2⟩, ?_, by decide⟩
    simp [App.Validate, hnm, Tasks.Validate, PrependValidationErrorPath]

/-- C7 witness: the amended statement evaluated at a concrete app. -/
theorem app_validate_two_tasks_counts_not_names_witness :
    ∃ e, App.Validate ⟨appNameStr, [], [taskBuildOk, taskBuildOk]⟩ = some e
      ∧ strHas e.message buildStr = false :=
  app_validate_two_tasks_counts_not_names appNameStr [] taskBuildOk
    taskBuildOk rfl rfl

/-- C8: counterexample — the task-count error originates inside
Tasks.Validate with an empty element path and is wrapped by exactly one
layer, App.Validate, so after one layer its path has one segment, not
two. -/
theorem validation_error_path_depth_cex :
    App.Validate appNoTasks = some ⟨[segTasks], tasksLenMsg 0⟩
  ∧ (ValidationError.mk [segTasks] (tasksLenMsg 0)).elementPath.length = 1
  ∧ ¬ (ValidationError.mk [segTasks] (tasksLenMsg 0)).elementPath.length
        = 1 + 1 := by
  refine ⟨?_, ?_, ?_⟩ <;> decide

/-- C8 amended: each wrapping layer prepends exactly its one segment, so an
error carrying K segments at its point of origin has K plus N segments after
N layers; the N plus one count of the original claim holds only for errors
that originate with exactly one segment. -/
theorem prepend_path_layer_count (segs : List String) (e : ValidationError) :
    (applyLayers segs e).elementPath = segs ++ e.elementPath
  ∧ (applyLayers segs e).elementPath.length
      = segs.length + e.elementPath.length := by
  have h : (applyLayers segs e).elementPath = segs ++ e.elementPath := by
    induction segs with
    | nil => rfl
    | cons s rest ih =>
      simp [applyLayers, PrependValidationErrorPath] at ih ⊢
      simp [ih]
  exact ⟨h, by rw [h]; simp⟩

/-- C9: the recursion of OutputInclude.Validate never returns for any
OutputInclude with a non-empty id and a non-nil Output payload: for every
fuel bound the embedded recursion exhausts the fuel. -/
theorem outputInclude_validate_nonterminating (n : Nat) :
    ∀ (out : OutputInclude), out.id ≠ emptyStr → out.output.isSome = true →
      OutputInclude.ValidateFuel n out = none := by
  induction n with
  | zero => intro out h1 h2; rfl
  | succ m ih =>
    intro out h1 h2
    cases hout : out.output with
    | none => rw [hout] at h2; simp at h2
    | some o =>
      simp [OutputInclude.ValidateFuel, h1, hout, ih out h1 h2]

/-- C9 witness: the nonterminating case evaluated at a concrete include. -/
theorem outputInclude_validate_nonterminating_witness :
    OutputInclude.ValidateFuel 3 outInclC9 = none :=
  outputInclude_validate_nonterminating 3 outInclC9 (by decide) (by decide)

/-- C10: resolving an existing input include for a task whose own Input
section is nil dereferences the nil pointer: the merge crashes rather than
succeeding. -/
theorem task_merge_nil_input_crash :
    Task.Merge dbIn1 taskNilInput = GoResult.crash := by
  decide

end BaurCfg
